import Mathlib

/-!
Verification development for the gesture-driven particle animation engine.

The embedding follows the source closely:
* `processFrame` models the gesture classifier and mode transition in
  App.tsx (the body of the setState update together with the landmark
  geometry computed before it).
* `Experience.updateParticle` and `Experience.update` model the per-tick
  particle update of Experience.update: the DUST kinematics, the per-mode
  target-transform policy, and the smoothing step.
* Host-library math (Math.cos, Math.sin, Math.PI, Math.hypot and the
  three.js quaternion slerp) is external to the repository, so it enters
  as a parameter structure `HostMath`; every theorem quantifies over it, and
  concrete witnesses instantiate it with simple computable functions.

Numbers are modelled by exact rationals.  Orientation state is the Euler
triple of the mesh; the scatter self-spin adds to its components exactly
as the source adds to mesh.rotation, and the quaternion slerp step is the
external function `HostMath.slerp` applied to the orientation state, the
current target Euler and the blend factor, mirroring the source call
mesh.quaternion.slerp(Quaternion().setFromEuler(targetRotation), 0.05).
-/

/-- Three rational coordinates; models THREE.Vector3 and Euler values. -/
@[ext]
structure Vec3 where
  x : ℚ
  y : ℚ
  z : ℚ
deriving DecidableEq, Repr, Inhabited

/-- Particle kind tag from types.ts: PARTICLE (ornament), PHOTO, DUST. -/
inductive PType where
  | PARTICLE
  | PHOTO
  | DUST
deriving DecidableEq, Repr, Inhabited

/-- Operating mode from types.ts. -/
inductive AppMode where
  | TREE
  | SCATTER
  | FOCUS
deriving DecidableEq, Repr, Inhabited

/-- ModeState: the fields of the App state that the engine logic reads
and writes (mode, handX, handY, activePhotoIndex). -/
structure State where
  mode : AppMode
  handX : ℚ
  handY : ℚ
  activePhotoIndex : Nat
deriving DecidableEq, Repr, Inhabited

/-- ParticleData from types.ts; position, rotation and scale are the live
mesh transform, the target fields are the policy outputs. -/
structure ParticleData where
  ptype : PType
  position : Vec3
  rotation : Vec3
  scale : Vec3
  targetPosition : Vec3
  targetRotation : Vec3
  targetScale : Vec3
  velocity : Vec3
  rotationSpeed : Vec3
deriving DecidableEq, Repr, Inhabited

/-- One hand landmark with normalized coordinates. -/
structure Landmark where
  x : ℚ
  y : ℚ
  z : ℚ
deriving DecidableEq, Repr, Inhabited

/-- One detected hand: 21 landmark points. -/
def Hand : Type := Fin 21 → Landmark

/-- External math and rendering-library operations used by the engine:
Math.cos, Math.sin, Math.PI, Math.hypot, and the three.js quaternion
slerp step acting on the orientation state (current orientation, target
Euler, blend factor). -/
structure HostMath where
  cos : ℚ → ℚ
  sin : ℚ → ℚ
  pi : ℚ
  hypot : ℚ → ℚ → ℚ → ℚ
  slerp : Vec3 → Vec3 → ℚ → Vec3

/-- PARTICLE_COUNT from constants.ts. -/
def PARTICLE_COUNT : ℚ := 1500

/-- DUST_COUNT from constants.ts. -/
def DUST_COUNT : ℚ := 2500

/-- GESTURE_THRESHOLDS.PINCH from constants.ts. -/
def PINCH_THRESHOLD : ℚ := 1/20

/-- GESTURE_THRESHOLDS.FIST from constants.ts. -/
def FIST_THRESHOLD : ℚ := 1/4

/-- GESTURE_THRESHOLDS.OPEN from constants.ts. -/
def OPEN_THRESHOLD : ℚ := 2/5

/-- Distance between thumb tip (landmark 4) and index tip (landmark 8),
as computed by Math.hypot in App.tsx processFrame. -/
def pinchDistance (M : HostMath) (lm : Hand) : ℚ :=
  M.hypot ((lm 4).x - (lm 8).x) ((lm 4).y - (lm 8).y) ((lm 4).z - (lm 8).z)

/-- Distance from the wrist (landmark 0) to one finger tip. -/
def fingerDist (M : HostMath) (lm : Hand) (j : Fin 21) : ℚ :=
  M.hypot ((lm j).x - (lm 0).x) ((lm j).y - (lm 0).y) ((lm j).z - (lm 0).z)

/-- Mean wrist-to-tip distance over index, middle, ring and pinky tips
(landmarks 8, 12, 16, 20), folded in source order starting from 0. -/
def avgFingerSpread (M : HostMath) (lm : Hand) : ℚ :=
  (0 + fingerDist M lm 8 + fingerDist M lm 12 + fingerDist M lm 16
    + fingerDist M lm 20) / 4

/-- Gesture classifier and mode transition from App.tsx processFrame.
With no hand detected the state is returned unchanged; with a hand, the
pointing signal is always written, and the mode and photo index follow
the pinch / fist / open decision chain. -/
def processFrame (M : HostMath) (hand : Option Hand) (s : State) : State :=
  match hand with
  | none => s
  | some lm =>
    let handX := ((lm 9).x - 1/2) * 2
    let handY := ((lm 9).y - 1/2) * 2
    let pinchDist := pinchDistance M lm
    let avgDist := avgFingerSpread M lm
    let next : AppMode × Nat :=
      if pinchDist < PINCH_THRESHOLD then
        if s.mode ≠ AppMode.FOCUS then (AppMode.FOCUS, s.activePhotoIndex + 1)
        else (s.mode, s.activePhotoIndex)
      else if avgDist < FIST_THRESHOLD then (AppMode.TREE, s.activePhotoIndex)
      else if avgDist > OPEN_THRESHOLD then (AppMode.SCATTER, s.activePhotoIndex)
      else (s.mode, s.activePhotoIndex)
    { mode := next.1, handX := handX, handY := handY,
      activePhotoIndex := next.2 }

/-- Componentwise linear interpolation, the semantics of
THREE.Vector3.lerp used by the smoothing step. -/
def lerpV (c t : Vec3) (a : ℚ) : Vec3 :=
  ⟨c.x + (t.x - c.x) * a, c.y + (t.y - c.y) * a, c.z + (t.z - c.z) * a⟩

/-- Componentwise vector sum. -/
def vadd (a b : Vec3) : Vec3 := ⟨a.x + b.x, a.y + b.y, a.z + b.z⟩

/-- Componentwise vector difference. -/
def vsub (a b : Vec3) : Vec3 := ⟨a.x - b.x, a.y - b.y, a.z - b.z⟩

/-- Scalar multiple of a vector. -/
def smul (k : ℚ) (v : Vec3) : Vec3 := ⟨k * v.x, k * v.y, k * v.z⟩

/-- Squared Euclidean distance between two vectors. -/
def distSq (a b : Vec3) : ℚ :=
  (a.x - b.x)^2 + (a.y - b.y)^2 + (a.z - b.z)^2

/-- Photo sublist of the registry, as Experience.update computes it with
particles.filter before the per-particle loop. -/
def photosOf (ps : List ParticleData) : List ParticleData :=
  ps.filter (fun p => p.ptype == PType.PHOTO)

/-- Ordinal of the particle at global index i among the PHOTO particles,
the value photos.indexOf(p) yields for a PHOTO particle. -/
def photoOrdinal (ps : List ParticleData) (i : Nat) : Nat :=
  ((ps.take i).filter (fun p => p.ptype == PType.PHOTO)).length

/-- Target-transform policy of Experience.update: the per-mode,
per-kind branch that writes the target fields (and, for ornaments in
SCATTER mode, adds the x and y spin components to the live rotation).
Arguments pc and po are the photo count and this particle's photo
ordinal; i is the global registry index. -/
def targetUpdate (M : HostMath) (s : State) (time : ℚ) (pc : Nat) (i : Nat)
    (po : Nat) (p : ParticleData) : ParticleData :=
  let t : ℚ := (i : ℚ) / PARTICLE_COUNT
  match s.mode, p.ptype with
  | AppMode.TREE, PType.PARTICLE =>
    let maxRadius : ℚ := 12
    let height : ℚ := 25
    let radius := maxRadius * (1 - t)
    let angle := t * 50 * M.pi + time * (1/5)
    { p with
      targetPosition := ⟨M.cos angle * radius, t * height - 10, M.sin angle * radius⟩,
      targetRotation := ⟨0, angle, 0⟩,
      targetScale := ⟨1, 1, 1⟩ }
  | AppMode.TREE, PType.PHOTO =>
    let angle := ((po : ℚ) / (pc : ℚ)) * M.pi * 2 + time * (1/10)
    let radius : ℚ := 15
    { p with
      targetPosition := ⟨M.cos angle * radius, 5, M.sin angle * radius⟩,
      targetRotation := ⟨0, -angle, 0⟩,
      targetScale := ⟨1, 1, 1⟩ }
  | AppMode.SCATTER, PType.PARTICLE =>
    let angle := t * M.pi * 2 + time * (1/10)
    let r := 15 + M.sin (time + t * 10) * 5
    { p with
      targetPosition := ⟨M.cos angle * r, M.sin (time * (1/2) + t * 5) * 10, M.sin angle * r⟩,
      rotation := ⟨p.rotation.x + p.rotationSpeed.x,
                   p.rotation.y + p.rotationSpeed.y,
                   p.rotation.z⟩,
      targetScale := ⟨1, 1, 1⟩ }
  | AppMode.SCATTER, PType.PHOTO =>
    let angle := ((po : ℚ) / (pc : ℚ)) * M.pi * 2 - time * (1/20)
    { p with
      targetPosition := ⟨M.cos angle * 20, M.sin (po : ℚ) * 10, M.sin angle * 20⟩,
      targetRotation := ⟨0, time, 0⟩,
      targetScale := ⟨1, 1, 1⟩ }
  | AppMode.FOCUS, _ =>
    if pc ≠ 0 ∧ p.ptype = PType.PHOTO ∧ po = s.activePhotoIndex % pc then
      { p with
        targetPosition := ⟨0, 2, 35⟩,
        targetRotation := ⟨0, 0, 0⟩,
        targetScale := ⟨9/2, 9/2, 9/2⟩ }
    else
      let angle := t * M.pi * 2
      { p with
        targetPosition := ⟨M.cos angle * 40, (t - 1/2) * 60, M.sin angle * 40⟩,
        targetScale := ⟨1/2, 1/2, 1/2⟩ }
  | _, _ => p

/-- Per-particle body of the Experience.update loop: DUST particles fall
and wrap and return early; all other particles get their targets from
the policy, then position and scale are lerped toward the targets at
blend 0.05, and the orientation is slerped toward the target rotation
unless the particle is an ornament in SCATTER mode. -/
def Experience.updateParticle (M : HostMath) (s : State) (time : ℚ) (pc : Nat)
    (i : Nat) (po : Nat) (p : ParticleData) : ParticleData :=
  if p.ptype = PType.DUST then
    let y := p.position.y - 1/20
    let y2 := if y < -30 then (30 : ℚ) else y
    { p with position := ⟨p.position.x, y2, p.position.z⟩ }
  else
    let q := targetUpdate M s time pc i po p
    let q2 := { q with
      position := lerpV q.position q.targetPosition (1/20),
      scale := lerpV q.scale q.targetScale (1/20) }
    if s.mode ≠ AppMode.SCATTER ∨ p.ptype = PType.PHOTO then
      { q2 with rotation := M.slerp q2.rotation q2.targetRotation (1/20) }
    else
      q2

/-- One tick of Experience.update over the whole particle registry
(the rendering side effects and the root-group rotation do not touch
particle state and are omitted). -/
def Experience.update (M : HostMath) (s : State) (time : ℚ)
    (ps : List ParticleData) : List ParticleData :=
  let pc := (photosOf ps).length
  (List.range ps.length).map (fun i =>
    Experience.updateParticle M s time pc i (photoOrdinal ps i)
      (ps.getD i default))

/-- Frame driver: each tick runs the classifier on the optional hand data
for that tick and then one Experience.update pass at that tick's clock
time. -/
def runTicks (M : HostMath) (frames : List (Option Hand × ℚ)) (s : State)
    (ps : List ParticleData) : State × List ParticleData :=
  match frames with
  | [] => (s, ps)
  | (h, τ) :: rest =>
    let s2 := processFrame M h s
    runTicks M rest s2 (Experience.update M s2 τ ps)

/-- Frames with no hand detected, one per clock time. -/
def noHandFrames (times : List ℚ) : List (Option Hand × ℚ) :=
  times.map (fun τ => ((none : Option Hand), τ))

/-- Concrete host-math instantiation for witnesses: hypot projects its
first argument, cosine and sine are constantly zero, slerp returns the
current orientation unchanged. -/
def hostW : HostMath :=
  { cos := fun _ => 0, sin := fun _ => 0, pi := 0,
    hypot := fun a _ _ => a, slerp := fun c _ _ => c }

/-- Concrete hand whose landmark j has x-coordinate j: under hostW the
pinch distance is negative (a pinch) while the finger spread is large
(an open hand), so both gesture conditions hold at once. -/
def lmW : Hand := fun j => ⟨(j.val : ℚ), 0, 0⟩

/-- Initial ModeState of the App: TREE mode, zero pointing signal,
photo index zero. -/
def sTree : State := ⟨AppMode.TREE, 0, 0, 0⟩

/-- ModeState in SCATTER mode. -/
def sScatter : State := ⟨AppMode.SCATTER, 0, 0, 0⟩

/-- ModeState in FOCUS mode. -/
def sFocus : State := ⟨AppMode.FOCUS, 0, 0, 0⟩

/-- Closed form of the classifier output on a frame with a hand. -/
theorem processFrame_some (M : HostMath) (lm : Hand) (s : State) :
    processFrame M (some lm) s =
      { mode :=
          if pinchDistance M lm < PINCH_THRESHOLD then
            (if s.mode ≠ AppMode.FOCUS then AppMode.FOCUS else s.mode)
          else if avgFingerSpread M lm < FIST_THRESHOLD then AppMode.TREE
          else if avgFingerSpread M lm > OPEN_THRESHOLD then AppMode.SCATTER
          else s.mode,
        handX := ((lm 9).x - 1/2) * 2,
        handY := ((lm 9).y - 1/2) * 2,
        activePhotoIndex :=
          if pinchDistance M lm < PINCH_THRESHOLD ∧ s.mode ≠ AppMode.FOCUS
          then s.activePhotoIndex + 1 else s.activePhotoIndex } := by
  simp only [processFrame]
  split_ifs <;> simp_all

/-- C2: the classifier decision is evaluated in the fixed order pinch,
fist, open, first match wins; in particular, when the pinch condition
and the open condition hold simultaneously the resulting mode is FOCUS,
not SCATTER. -/
theorem C2_gesture_priority (M : HostMath) (lm : Hand) (s : State) :
    (pinchDistance M lm < PINCH_THRESHOLD →
      (processFrame M (some lm) s).mode = AppMode.FOCUS)
    ∧ (¬ pinchDistance M lm < PINCH_THRESHOLD →
        avgFingerSpread M lm < FIST_THRESHOLD →
        (processFrame M (some lm) s).mode = AppMode.TREE)
    ∧ (¬ pinchDistance M lm < PINCH_THRESHOLD →
        ¬ avgFingerSpread M lm < FIST_THRESHOLD →
        avgFingerSpread M lm > OPEN_THRESHOLD →
        (processFrame M (some lm) s).mode = AppMode.SCATTER)
    ∧ (¬ pinchDistance M lm < PINCH_THRESHOLD →
        ¬ avgFingerSpread M lm < FIST_THRESHOLD →
        ¬ avgFingerSpread M lm > OPEN_THRESHOLD →
        (processFrame M (some lm) s).mode = s.mode)
    ∧ (pinchDistance M lm < PINCH_THRESHOLD →
        avgFingerSpread M lm > OPEN_THRESHOLD →
        (processFrame M (some lm) s).mode = AppMode.FOCUS
        ∧ (processFrame M (some lm) s).mode ≠ AppMode.SCATTER) := by
  rw [processFrame_some]
  refine ⟨?_, ?_, ?_, ?_, ?_⟩
  · intro h1
    by_cases hm : s.mode = AppMode.FOCUS <;> simp [h1, hm]
  · intro h1 h2
    simp [h1, h2]
  · intro h1 h2 h3
    simp [h1, h2, h3]
  · intro h1 h2 h3
    simp [h1, h2, h3]
  · intro h1 h2
    by_cases hm : s.mode = AppMode.FOCUS <;> simp [h1, hm]

/-- Witness for C2 at a concrete hand where pinch distance is below the
pinch threshold while finger spread is above the open threshold. -/
theorem C2_witness :
    pinchDistance hostW lmW < PINCH_THRESHOLD
    ∧ avgFingerSpread hostW lmW > OPEN_THRESHOLD
    ∧ (processFrame hostW (some lmW) sTree).mode = AppMode.FOCUS := by
  have e4 : ((4 : Fin 21)).val = 4 := rfl
  have e8 : ((8 : Fin 21)).val = 8 := rfl
  have e12 : ((12 : Fin 21)).val = 12 := rfl
  have e16 : ((16 : Fin 21)).val = 16 := rfl
  have e20 : ((20 : Fin 21)).val = 20 := rfl
  have e0 : ((0 : Fin 21)).val = 0 := rfl
  have hp : pinchDistance hostW lmW < PINCH_THRESHOLD := by
    simp [pinchDistance, hostW, lmW, PINCH_THRESHOLD, e4, e8]
    norm_num
  have ho : avgFingerSpread hostW lmW > OPEN_THRESHOLD := by
    simp [avgFingerSpread, fingerDist, hostW, lmW, OPEN_THRESHOLD,
      e0, e8, e12, e16, e20]
    norm_num
  exact ⟨hp, ho, ((C2_gesture_priority hostW lmW sTree).2.2.2.2 hp ho).1⟩

/-- C3: activePhotoIndex changes only on a TREE/SCATTER to FOCUS edge; a
pinch while already in FOCUS changes neither the mode nor the index, a
pinch from TREE or SCATTER enters FOCUS and increments the index by one,
and any non-pinch frame (fist, open or none) leaves the index unchanged. -/
theorem C3_photo_index_edges (M : HostMath) (lm : Hand) (s : State) :
    (pinchDistance M lm < PINCH_THRESHOLD → s.mode = AppMode.FOCUS →
      (processFrame M (some lm) s).mode = s.mode
      ∧ (processFrame M (some lm) s).activePhotoIndex = s.activePhotoIndex)
    ∧ (pinchDistance M lm < PINCH_THRESHOLD → s.mode ≠ AppMode.FOCUS →
      (processFrame M (some lm) s).mode = AppMode.FOCUS
      ∧ (processFrame M (some lm) s).activePhotoIndex = s.activePhotoIndex + 1)
    ∧ (¬ pinchDistance M lm < PINCH_THRESHOLD →
      (processFrame M (some lm) s).activePhotoIndex = s.activePhotoIndex) := by
  rw [processFrame_some]
  refine ⟨?_, ?_, ?_⟩
  · intro h1 hm
    simp [h1, hm]
  · intro h1 hm
    simp [h1, hm]
  · intro h1
    simp [h1]

/-- Witness for C3: a pinch from TREE enters FOCUS with index one, and a
pinch while already in FOCUS keeps mode FOCUS and index zero. -/
theorem C3_witness :
    ((processFrame hostW (some lmW) sTree).mode = AppMode.FOCUS
      ∧ (processFrame hostW (some lmW) sTree).activePhotoIndex = 1)
    ∧ ((processFrame hostW (some lmW) sFocus).mode = AppMode.FOCUS
      ∧ (processFrame hostW (some lmW) sFocus).activePhotoIndex = 0) := by
  have e4 : ((4 : Fin 21)).val = 4 := rfl
  have e8 : ((8 : Fin 21)).val = 8 := rfl
  have hp : pinchDistance hostW lmW < PINCH_THRESHOLD := by
    simp [pinchDistance, hostW, lmW, PINCH_THRESHOLD, e4, e8]
    norm_num
  have h1 := (C3_photo_index_edges hostW lmW sTree).2.1 hp (by simp [sTree])
  have h2 := (C3_photo_index_edges hostW lmW sFocus).1 hp (by simp [sFocus])
  exact ⟨⟨h1.1, h1.2⟩, ⟨by rw [h2.1]; rfl, h2.2⟩⟩

/-- C8: with no hand the classifier leaves the whole ModeState
unchanged; with a hand present the pointing signal computed from
landmark 9 is written unconditionally, whatever the gesture decision. -/
theorem C8_hand_presence (M : HostMath) (s : State) :
    processFrame M none s = s
    ∧ ∀ lm : Hand,
      (processFrame M (some lm) s).handX = ((lm 9).x - 1/2) * 2
      ∧ (processFrame M (some lm) s).handY = ((lm 9).y - 1/2) * 2 := by
  refine ⟨rfl, fun lm => ?_⟩
  rw [processFrame_some]
  exact ⟨rfl, rfl⟩

/-- Ornament fixture: a PARTICLE at the origin with identity scale. -/
def ornP : ParticleData :=
  ⟨PType.PARTICLE, ⟨0, 0, 0⟩, ⟨0, 0, 0⟩, ⟨1, 1, 1⟩, ⟨0, 0, 0⟩, ⟨0, 0, 0⟩,
    ⟨1, 1, 1⟩, ⟨0, 0, 0⟩, ⟨0, 0, 0⟩⟩

/-- Dust fixture just above the wrap bound. -/
def dustP : ParticleData :=
  ⟨PType.DUST, ⟨3, -2999/100, 7⟩, ⟨0, 0, 0⟩, ⟨1, 1, 1⟩, ⟨0, 0, 0⟩, ⟨0, 0, 0⟩,
    ⟨1, 1, 1⟩, ⟨0, -1/100, 0⟩, ⟨0, 0, 0⟩⟩

/-- Ornament fixture whose spin rate is purely about the z axis. -/
def spinP : ParticleData :=
  ⟨PType.PARTICLE, ⟨0, 0, 0⟩, ⟨0, 0, 0⟩, ⟨1, 1, 1⟩, ⟨0, 0, 0⟩, ⟨0, 0, 0⟩,
    ⟨1, 1, 1⟩, ⟨0, 0, 0⟩, ⟨0, 0, 1⟩⟩

/-- One smoothing tick moves the offset to target by the factor 19/20. -/
theorem lerpV_vsub (c T : Vec3) :
    vsub (lerpV c T (1/20)) T = smul (1 - 1/20) (vsub c T) := by
  apply Vec3.ext <;> simp [lerpV, vsub, smul] <;> ring

/-- One smoothing tick scales the squared distance by (19/20)^2. -/
theorem distSq_lerpV (c T : Vec3) :
    distSq (lerpV c T (1/20)) T = (361/400) * distSq c T := by
  simp only [distSq, lerpV]
  ring

/-- Squared distance vanishes exactly at equality. -/
theorem distSq_eq_zero_iff (a b : Vec3) : distSq a b = 0 ↔ a = b := by
  unfold distSq
  constructor
  · intro h
    have hx := sq_nonneg (a.x - b.x)
    have hy := sq_nonneg (a.y - b.y)
    have hz := sq_nonneg (a.z - b.z)
    have ex : (a.x - b.x)^2 = 0 := by linarith
    have ey : (a.y - b.y)^2 = 0 := by linarith
    have ez : (a.z - b.z)^2 = 0 := by linarith
    have ex2 : a.x - b.x = 0 := by
      exact pow_eq_zero_iff (two_ne_zero) |>.mp ex
    have ey2 : a.y - b.y = 0 := by
      exact pow_eq_zero_iff (two_ne_zero) |>.mp ey
    have ez2 : a.z - b.z = 0 := by
      exact pow_eq_zero_iff (two_ne_zero) |>.mp ez
    apply Vec3.ext <;> linarith
  · intro h
    rw [h]
    ring

/-- Squared distance is nonnegative. -/
theorem distSq_nonneg (a b : Vec3) : 0 ≤ distSq a b := by
  unfold distSq
  positivity

/-- Iterated smoothing scales the squared distance geometrically. -/
theorem distSq_iterate (T c : Vec3) (n : Nat) :
    distSq ((fun v => lerpV v T (1/20))^[n] c) T
      = (361/400)^n * distSq c T := by
  induction n with
  | zero => simp
  | succ k ih =>
    rw [Function.iterate_succ_apply', distSq_lerpV, ih]
    ring

/-- C4: repeatedly ticking the smoother with a constant target leaves
exactly 19/20 of the offset each tick, so the distance to the target
strictly decreases geometrically toward zero, never overshoots and never
exactly reaches the target from a distinct start; and the particle
update applies exactly this lerp at blend 0.05 to the position and scale
of every non-DUST particle. -/
theorem C4_smoothing_convergence (T c : Vec3) (n : Nat) (h : c ≠ T) :
    vsub (lerpV c T (1/20)) T = smul (1 - 1/20) (vsub c T)
    ∧ distSq (lerpV c T (1/20)) T < distSq c T
    ∧ lerpV c T (1/20) ≠ T
    ∧ distSq ((fun v => lerpV v T (1/20))^[n] c) T
        = (361/400)^n * distSq c T
    ∧ (∀ (M : HostMath) (s : State) (time : ℚ) (pc i po : Nat)
        (p : ParticleData), p.ptype ≠ PType.DUST →
        (Experience.updateParticle M s time pc i po p).position
          = lerpV (targetUpdate M s time pc i po p).position
              (targetUpdate M s time pc i po p).targetPosition (1/20)
        ∧ (Experience.updateParticle M s time pc i po p).scale
          = lerpV (targetUpdate M s time pc i po p).scale
              (targetUpdate M s time pc i po p).targetScale (1/20)) := by
  have hdpos : 0 < distSq c T := by
    rcases lt_or_eq_of_le (distSq_nonneg c T) with hlt | heq
    · exact hlt
    · exact absurd ((distSq_eq_zero_iff c T).mp heq.symm) h
  refine ⟨lerpV_vsub c T, ?_, ?_, distSq_iterate T c n, ?_⟩
  · rw [distSq_lerpV]
    linarith
  · intro he
    have : distSq (lerpV c T (1/20)) T = 0 := (distSq_eq_zero_iff _ _).mpr he
    rw [distSq_lerpV] at this
    linarith
  · intro M s time pc i po p hd
    constructor <;>
      · simp only [Experience.updateParticle, if_neg hd]
        split <;> rfl

/-- Witness for C4 at a concrete off-target start. -/
theorem C4_witness :
    distSq (lerpV ⟨1, 0, 0⟩ ⟨0, 0, 0⟩ (1/20)) ⟨0, 0, 0⟩
        < distSq ⟨1, 0, 0⟩ ⟨0, 0, 0⟩
    ∧ lerpV ⟨1, 0, 0⟩ ⟨0, 0, 0⟩ (1/20) ≠ (⟨0, 0, 0⟩ : Vec3) := by
  have hne : (⟨1, 0, 0⟩ : Vec3) ≠ ⟨0, 0, 0⟩ := by
    intro h
    have := congrArg Vec3.x h
    norm_num at this
  have h := C4_smoothing_convergence ⟨0, 0, 0⟩ ⟨1, 0, 0⟩ 2 hne
  exact ⟨h.2.1, h.2.2.1⟩

/-- C5: on every tick, in every mode, a DUST particle only has its
vertical coordinate decremented by 0.05, wrapping to exactly 30 when the
decremented value falls below -30; every other field is untouched, and
the post-tick vertical coordinate is never below -30. -/
theorem C5_dust_kinematics (M : HostMath) (s : State) (time : ℚ)
    (pc i po : Nat) (p : ParticleData) (hd : p.ptype = PType.DUST) :
    Experience.updateParticle M s time pc i po p =
      { p with position :=
          ⟨p.position.x,
           (if p.position.y - 1/20 < -30 then (30 : ℚ)
            else p.position.y - 1/20),
           p.position.z⟩ }
    ∧ -30 ≤ (Experience.updateParticle M s time pc i po p).position.y := by
  have h1 : Experience.updateParticle M s time pc i po p =
      { p with position :=
          ⟨p.position.x,
           (if p.position.y - 1/20 < -30 then (30 : ℚ)
            else p.position.y - 1/20),
           p.position.z⟩ } := by
    simp only [Experience.updateParticle, if_pos hd]
  refine ⟨h1, ?_⟩
  rw [h1]
  by_cases hy : p.position.y - 1/20 < -30
  · simp only [if_pos hy]
    norm_num
  · simp only [if_neg hy]
    push_neg at hy
    simpa using hy

/-- Witness for C5 at a dust particle just above the wrap bound, which
wraps to exactly 30 on this tick. -/
theorem C5_witness :
    Experience.updateParticle hostW sScatter 0 0 0 0 dustP =
      { dustP with position := ⟨3, 30, 7⟩ }
    ∧ -30 ≤ (Experience.updateParticle hostW sScatter 0 0 0 0 dustP).position.y := by
  have h := C5_dust_kinematics hostW sScatter 0 0 0 0 dustP rfl
  refine ⟨?_, h.2⟩
  rw [h.1]
  have hc : dustP.position.y - 1/20 < -30 := by
    norm_num [dustP]
  rw [if_pos hc]
  norm_num [dustP]

/-- Target transform a TREE-mode ornament receives on one tick, read off
the TREE/PARTICLE branch of the policy. -/
theorem treeOrnamentTarget (M : HostMath) (s : State) (time : ℚ)
    (pc i po : Nat) (p : ParticleData)
    (hm : s.mode = AppMode.TREE) (hp : p.ptype = PType.PARTICLE) :
    (Experience.updateParticle M s time pc i po p).targetPosition =
      ⟨M.cos (((i : ℚ)/PARTICLE_COUNT) * 50 * M.pi + time * (1/5))
          * (12 * (1 - (i : ℚ)/PARTICLE_COUNT)),
       ((i : ℚ)/PARTICLE_COUNT) * 25 - 10,
       M.sin (((i : ℚ)/PARTICLE_COUNT) * 50 * M.pi + time * (1/5))
          * (12 * (1 - (i : ℚ)/PARTICLE_COUNT))⟩
    ∧ (Experience.updateParticle M s time pc i po p).targetRotation =
      ⟨0, ((i : ℚ)/PARTICLE_COUNT) * 50 * M.pi + time * (1/5), 0⟩
    ∧ (Experience.updateParticle M s time pc i po p).targetScale
        = ⟨1, 1, 1⟩ := by
  have hd : p.ptype ≠ PType.DUST := by rw [hp]; intro h; cases h
  have hsl : s.mode ≠ AppMode.SCATTER ∨ p.ptype = PType.PHOTO := by
    left; rw [hm]; intro h; cases h
  have htu : targetUpdate M s time pc i po p =
      { p with
        targetPosition :=
          ⟨M.cos (((i : ℚ)/PARTICLE_COUNT) * 50 * M.pi + time * (1/5))
              * (12 * (1 - (i : ℚ)/PARTICLE_COUNT)),
           ((i : ℚ)/PARTICLE_COUNT) * 25 - 10,
           M.sin (((i : ℚ)/PARTICLE_COUNT) * 50 * M.pi + time * (1/5))
              * (12 * (1 - (i : ℚ)/PARTICLE_COUNT))⟩,
        targetRotation :=
          ⟨0, ((i : ℚ)/PARTICLE_COUNT) * 50 * M.pi + time * (1/5), 0⟩,
        targetScale := ⟨1, 1, 1⟩ } := by
    simp only [targetUpdate, hm, hp]
  refine ⟨?_, ?_, ?_⟩ <;>
    simp only [Experience.updateParticle, if_neg hd, if_pos hsl, htu]

/-- Modelled from the spec: the vertical coordinate of the TREE-mode
ornament target as claim C1 words it, t times height minus half the
height, with height 25. -/
def specTreeY (t : ℚ) : ℚ := t * 25 - 25/2

/-- Counterexample to C1 as stated: at rank t = 0 the code puts the
target height at -10, while the claimed formula t times height minus
height over 2 gives -12.5. -/
theorem C1_counterexample :
    (Experience.updateParticle hostW sTree 0 0 0 0 ornP).targetPosition.y = -10
    ∧ specTreeY ((0 : ℚ)/PARTICLE_COUNT) = -(25/2)
    ∧ (-10 : ℚ) ≠ -(25/2) := by
  have h := treeOrnamentTarget hostW sTree 0 0 0 0 ornP rfl rfl
  refine ⟨?_, ?_, by norm_num⟩
  · rw [h.1]
    norm_num [PARTICLE_COUNT]
  · norm_num [specTreeY, PARTICLE_COUNT]

/-- C1 amended: in TREE mode every ornament target is the conical helix
with radius 12(1-t) and angle 50 t pi + 0.2 time, target position
(radius cos angle, t height - 10, radius sin angle) with height 25, a
yaw-only target rotation by the angle, and identity target scale. -/
theorem C1_tree_helix_target (M : HostMath) (s : State) (time : ℚ)
    (pc i po : Nat) (p : ParticleData)
    (hm : s.mode = AppMode.TREE) (hp : p.ptype = PType.PARTICLE) :
    (Experience.updateParticle M s time pc i po p).targetPosition =
      ⟨M.cos (((i : ℚ)/PARTICLE_COUNT) * 50 * M.pi + time * (1/5))
          * (12 * (1 - (i : ℚ)/PARTICLE_COUNT)),
       ((i : ℚ)/PARTICLE_COUNT) * 25 - 10,
       M.sin (((i : ℚ)/PARTICLE_COUNT) * 50 * M.pi + time * (1/5))
          * (12 * (1 - (i : ℚ)/PARTICLE_COUNT))⟩
    ∧ (Experience.updateParticle M s time pc i po p).targetRotation =
      ⟨0, ((i : ℚ)/PARTICLE_COUNT) * 50 * M.pi + time * (1/5), 0⟩
    ∧ (Experience.updateParticle M s time pc i po p).targetScale
        = ⟨1, 1, 1⟩ :=
  treeOrnamentTarget M s time pc i po p hm hp

/-- Witness for the amended C1 at a concrete ornament. -/
theorem C1_witness :
    (Experience.updateParticle hostW sTree 0 0 0 0 ornP).targetPosition.y = -10
    ∧ (Experience.updateParticle hostW sTree 0 0 0 0 ornP).targetScale
        = ⟨1, 1, 1⟩ := by
  have h := C1_tree_helix_target hostW sTree 0 0 0 0 ornP rfl rfl
  refine ⟨?_, h.2.2⟩
  rw [h.1]
  norm_num [PARTICLE_COUNT]

/-- Rotation of a SCATTER-mode ornament after one tick: the x and y spin
components accumulate onto the orientation and the z component is left
alone; the slerp step is skipped. -/
theorem scatterSpinStep (M : HostMath) (s : State) (time : ℚ)
    (pc i po : Nat) (p : ParticleData)
    (hm : s.mode = AppMode.SCATTER) (hp : p.ptype = PType.PARTICLE) :
    (Experience.updateParticle M s time pc i po p).rotation =
      ⟨p.rotation.x + p.rotationSpeed.x,
       p.rotation.y + p.rotationSpeed.y,
       p.rotation.z⟩ := by
  have hd : p.ptype ≠ PType.DUST := by rw [hp]; intro h; cases h
  simp only [Experience.updateParticle, if_neg hd, targetUpdate, hm, hp]
  simp

/-- Rotation after one tick in every non-DUST case where the source
condition mode different from SCATTER or kind PHOTO holds: the external
slerp step advances the orientation toward the current target rotation
at blend 0.05. -/
theorem slerpStepRotation (M : HostMath) (s : State) (time : ℚ)
    (pc i po : Nat) (p : ParticleData) (hd : p.ptype ≠ PType.DUST)
    (hc : s.mode ≠ AppMode.SCATTER ∨ p.ptype = PType.PHOTO) :
    (Experience.updateParticle M s time pc i po p).rotation =
      M.slerp p.rotation
        (Experience.updateParticle M s time pc i po p).targetRotation
        (1/20) := by
  simp only [Experience.updateParticle, if_neg hd, if_pos hc]
  cases hmode : s.mode <;> cases hpt : p.ptype <;>
    simp_all [targetUpdate] <;> split <;> rfl

/-- Counterexample to C6 as stated: a SCATTER ornament whose spin rate
is purely about z keeps its z orientation unchanged, so the claimed
full-vector addition of spinRate does not describe the tick. -/
theorem C6_counterexample :
    (Experience.updateParticle hostW sScatter 0 0 0 0 spinP).rotation
        = ⟨0, 0, 0⟩
    ∧ vadd spinP.rotation spinP.rotationSpeed = ⟨0, 0, 1⟩
    ∧ (Experience.updateParticle hostW sScatter 0 0 0 0 spinP).rotation
        ≠ vadd spinP.rotation spinP.rotationSpeed := by
  have h := scatterSpinStep hostW sScatter 0 0 0 0 spinP rfl rfl
  have h1 : (Experience.updateParticle hostW sScatter 0 0 0 0 spinP).rotation
      = ⟨0, 0, 0⟩ := by
    rw [h]
    simp [spinP]
  have h2 : vadd spinP.rotation spinP.rotationSpeed = ⟨0, 0, 1⟩ := by
    simp [vadd, spinP]
  refine ⟨h1, h2, ?_⟩
  rw [h1, h2]
  intro heq
  have := congrArg Vec3.z heq
  norm_num at this

/-- C6 amended: in SCATTER mode an ornament bypasses the slerp step and
accumulates self-spin by adding the x and y components of its spinRate
to its orientation, the z component staying put; in every other
mode-kind combination of ornament and photo the orientation advances by
the spherical interpolation toward the target rotation at blend 0.05. -/
theorem C6_orientation_paths (M : HostMath) (s : State) (time : ℚ)
    (pc i po : Nat) (p : ParticleData) :
    (s.mode = AppMode.SCATTER → p.ptype = PType.PARTICLE →
      (Experience.updateParticle M s time pc i po p).rotation =
        ⟨p.rotation.x + p.rotationSpeed.x,
         p.rotation.y + p.rotationSpeed.y,
         p.rotation.z⟩)
    ∧ (p.ptype ≠ PType.DUST →
        (s.mode ≠ AppMode.SCATTER ∨ p.ptype = PType.PHOTO) →
        (Experience.updateParticle M s time pc i po p).rotation =
          M.slerp p.rotation
            (Experience.updateParticle M s time pc i po p).targetRotation
            (1/20)) :=
  ⟨fun hm hp => scatterSpinStep M s time pc i po p hm hp,
   fun hd hc => slerpStepRotation M s time pc i po p hd hc⟩

/-- Witness for the amended C6 at a concrete spinning ornament. -/
theorem C6_witness :
    (Experience.updateParticle hostW sScatter 0 0 0 0 spinP).rotation
      = ⟨0, 0, 0⟩ := by
  have h := (C6_orientation_paths hostW sScatter 0 0 0 0 spinP).1 rfl rfl
  rw [h]
  simp [spinP]

/-- C10: in FOCUS mode a non-active, non-DUST particle has its target
rotation left exactly as it was, while the slerp step still runs toward
that stale target. -/
theorem C10_stale_focus_rotation (M : HostMath) (s : State) (time : ℚ)
    (pc i po : Nat) (p : ParticleData)
    (hm : s.mode = AppMode.FOCUS) (hd : p.ptype ≠ PType.DUST)
    (hna : ¬(pc ≠ 0 ∧ p.ptype = PType.PHOTO
        ∧ po = s.activePhotoIndex % pc)) :
    (Experience.updateParticle M s time pc i po p).targetRotation
        = p.targetRotation
    ∧ (Experience.updateParticle M s time pc i po p).rotation =
        M.slerp p.rotation p.targetRotation (1/20) := by
  have hcond : s.mode ≠ AppMode.SCATTER ∨ p.ptype = PType.PHOTO := by
    left
    rw [hm]
    intro h
    cases h
  have hfoc : targetUpdate M s time pc i po p =
      { p with
        targetPosition :=
          ⟨M.cos (((i : ℚ)/PARTICLE_COUNT) * M.pi * 2) * 40,
           (((i : ℚ)/PARTICLE_COUNT) - 1/2) * 60,
           M.sin (((i : ℚ)/PARTICLE_COUNT) * M.pi * 2) * 40⟩,
        targetScale := ⟨1/2, 1/2, 1/2⟩ } := by
    cases hpt : p.ptype
    case PARTICLE =>
      simp only [targetUpdate, hm, hpt]
      rw [if_neg]
      intro hx
      exact nomatch hx.2.1
    case PHOTO =>
      rw [hpt] at hna
      simp only [targetUpdate, hm, hpt]
      rw [if_neg]
      intro hx
      exact hna ⟨hx.1, rfl, hx.2.2⟩
    case DUST => exact absurd hpt hd
  constructor <;>
    simp only [Experience.updateParticle, if_neg hd, if_pos hcond, hfoc]

/-- Witness for C10: an ornament in FOCUS mode with no photos keeps its
stale target rotation and is slerped toward it. -/
theorem C10_witness :
    (Experience.updateParticle hostW sFocus 0 0 0 0 ornP).targetRotation
        = ornP.targetRotation
    ∧ (Experience.updateParticle hostW sFocus 0 0 0 0 ornP).rotation =
        hostW.slerp ornP.rotation ornP.targetRotation (1/20) :=
  C10_stale_focus_rotation hostW sFocus 0 0 0 0 ornP rfl
    (by intro h; cases h) (by simp)

/-- Photo fixture at the origin. -/
def photoP : ParticleData :=
  ⟨PType.PHOTO, ⟨0, 0, 0⟩, ⟨0, 0, 0⟩, ⟨1, 1, 1⟩, ⟨0, 0, 0⟩, ⟨0, 0, 0⟩,
    ⟨1, 1, 1⟩, ⟨0, 0, 0⟩, ⟨0, 0, 0⟩⟩

/-- One engine tick preserves the number of particles. -/
theorem update_length (M : HostMath) (s : State) (time : ℚ)
    (ps : List ParticleData) :
    (Experience.update M s time ps).length = ps.length := by
  simp [Experience.update]

/-- Element form of one engine tick: the particle at index i is updated
with the photo count and its own photo ordinal. -/
theorem update_getD (M : HostMath) (s : State) (time : ℚ)
    (ps : List ParticleData) (i : Nat) (hi : i < ps.length) :
    (Experience.update M s time ps).getD i default =
      Experience.updateParticle M s time (photosOf ps).length i
        (photoOrdinal ps i) (ps.getD i default) := by
  simp only [Experience.update]
  rw [List.getD_eq_getElem?_getD, List.getElem?_map, List.getElem?_range hi]
  rfl

/-- Target transform of the active photo in FOCUS mode. -/
theorem focusActiveTarget (M : HostMath) (s : State) (time : ℚ)
    (pc i po : Nat) (p : ParticleData)
    (hm : s.mode = AppMode.FOCUS) (hpc : pc ≠ 0)
    (hp : p.ptype = PType.PHOTO) (hpo : po = s.activePhotoIndex % pc) :
    (Experience.updateParticle M s time pc i po p).targetPosition = ⟨0, 2, 35⟩
    ∧ (Experience.updateParticle M s time pc i po p).targetRotation = ⟨0, 0, 0⟩
    ∧ (Experience.updateParticle M s time pc i po p).targetScale
        = ⟨9/2, 9/2, 9/2⟩ := by
  have hd : p.ptype ≠ PType.DUST := by rw [hp]; intro h; cases h
  have hcond : s.mode ≠ AppMode.SCATTER ∨ p.ptype = PType.PHOTO := Or.inr hp
  have htu : targetUpdate M s time pc i po p =
      { p with
        targetPosition := ⟨0, 2, 35⟩,
        targetRotation := ⟨0, 0, 0⟩,
        targetScale := ⟨9/2, 9/2, 9/2⟩ } := by
    simp only [targetUpdate, hm, hp]
    rw [if_pos]
    exact ⟨hpc, by trivial, hpo⟩
  refine ⟨?_, ?_, ?_⟩ <;>
    simp only [Experience.updateParticle, if_neg hd, if_pos hcond, htu]

/-- Target transform of every non-active, non-DUST particle in FOCUS
mode: the generic outward ring at radius 40 with shrunk scale. -/
theorem focusOtherTarget (M : HostMath) (s : State) (time : ℚ)
    (pc i po : Nat) (p : ParticleData)
    (hm : s.mode = AppMode.FOCUS) (hd : p.ptype ≠ PType.DUST)
    (hna : ¬(pc ≠ 0 ∧ p.ptype = PType.PHOTO
        ∧ po = s.activePhotoIndex % pc)) :
    (Experience.updateParticle M s time pc i po p).targetPosition =
      ⟨M.cos (((i : ℚ)/PARTICLE_COUNT) * M.pi * 2) * 40,
       (((i : ℚ)/PARTICLE_COUNT) - 1/2) * 60,
       M.sin (((i : ℚ)/PARTICLE_COUNT) * M.pi * 2) * 40⟩
    ∧ (Experience.updateParticle M s time pc i po p).targetScale
        = ⟨1/2, 1/2, 1/2⟩ := by
  have hcond : s.mode ≠ AppMode.SCATTER ∨ p.ptype = PType.PHOTO := by
    left; rw [hm]; intro h; cases h
  have hfoc : targetUpdate M s time pc i po p =
      { p with
        targetPosition :=
          ⟨M.cos (((i : ℚ)/PARTICLE_COUNT) * M.pi * 2) * 40,
           (((i : ℚ)/PARTICLE_COUNT) - 1/2) * 60,
           M.sin (((i : ℚ)/PARTICLE_COUNT) * M.pi * 2) * 40⟩,
        targetScale := ⟨1/2, 1/2, 1/2⟩ } := by
    cases hpt : p.ptype
    case PARTICLE =>
      simp only [targetUpdate, hm, hpt]
      rw [if_neg]
      intro hx
      exact nomatch hx.2.1
    case PHOTO =>
      rw [hpt] at hna
      simp only [targetUpdate, hm, hpt]
      rw [if_neg]
      intro hx
      exact hna ⟨hx.1, rfl, hx.2.2⟩
    case DUST => exact absurd hpt hd
  constructor <;>
    simp only [Experience.updateParticle, if_neg hd, if_pos hcond, hfoc]

/-- C7: in FOCUS mode, exactly the PHOTO particle whose photo ordinal is
activePhotoIndex mod photoCount receives the camera-facing target with
identity rotation and uniform scale 4.5, while every other ornament or
photo receives the generic outward ring target at radius 40 with scale
0.5; with zero photos no particle is active, so every ornament and photo
falls back to the generic target. -/
theorem C7_focus_targets (M : HostMath) (s : State) (time : ℚ)
    (ps : List ParticleData) (i : Nat)
    (hm : s.mode = AppMode.FOCUS) (hi : i < ps.length) :
    ((photosOf ps).length ≠ 0 → (ps.getD i default).ptype = PType.PHOTO →
      photoOrdinal ps i = s.activePhotoIndex % (photosOf ps).length →
      ((Experience.update M s time ps).getD i default).targetPosition
          = ⟨0, 2, 35⟩
      ∧ ((Experience.update M s time ps).getD i default).targetRotation
          = ⟨0, 0, 0⟩
      ∧ ((Experience.update M s time ps).getD i default).targetScale
          = ⟨9/2, 9/2, 9/2⟩)
    ∧ ((ps.getD i default).ptype ≠ PType.DUST →
      ¬((photosOf ps).length ≠ 0
          ∧ (ps.getD i default).ptype = PType.PHOTO
          ∧ photoOrdinal ps i = s.activePhotoIndex % (photosOf ps).length) →
      ((Experience.update M s time ps).getD i default).targetPosition =
        ⟨M.cos (((i : ℚ)/PARTICLE_COUNT) * M.pi * 2) * 40,
         (((i : ℚ)/PARTICLE_COUNT) - 1/2) * 60,
         M.sin (((i : ℚ)/PARTICLE_COUNT) * M.pi * 2) * 40⟩
      ∧ ((Experience.update M s time ps).getD i default).targetScale
          = ⟨1/2, 1/2, 1/2⟩) := by
  rw [update_getD M s time ps i hi]
  constructor
  · intro h1 h2 h3
    exact focusActiveTarget M s time (photosOf ps).length i
      (photoOrdinal ps i) (ps.getD i default) hm h1 h2 h3
  · intro hd hna
    exact focusOtherTarget M s time (photosOf ps).length i
      (photoOrdinal ps i) (ps.getD i default) hm hd hna

/-- Witness for C7: one photo in FOCUS mode with index zero is active
and receives the camera-facing enlarged target. -/
theorem C7_witness :
    ((Experience.update hostW sFocus 0 [photoP]).getD 0 default).targetPosition
        = ⟨0, 2, 35⟩
    ∧ ((Experience.update hostW sFocus 0 [photoP]).getD 0 default).targetScale
        = ⟨9/2, 9/2, 9/2⟩ := by
  have h := (C7_focus_targets hostW sFocus 0 [photoP] 0 rfl (by decide)).1
      (by decide) (by decide) (by decide)
  exact ⟨h.1, h.2.2⟩

/-- Point of the conical-helix curve of rank t at curve parameter θ:
the curve traced by the TREE-mode ornament target as the angle varies. -/
def helixPoint (M : HostMath) (t θ : ℚ) : Vec3 :=
  ⟨M.cos θ * (12 * (1 - t)), t * 25 - 10, M.sin θ * (12 * (1 - t))⟩

/-- One hundred tick times. -/
def times100 : List ℚ := (List.range 100).map (fun k : Nat => (k : ℚ))

/-- One TREE tick of an ornament: the kind is preserved and the vertical
coordinate moves five percent of the way to the helix height. -/
theorem treeOrnamentTick (M : HostMath) (s : State) (τ : ℚ)
    (pc i po : Nat) (p : ParticleData)
    (hm : s.mode = AppMode.TREE) (hp : p.ptype = PType.PARTICLE) :
    (Experience.updateParticle M s τ pc i po p).ptype = PType.PARTICLE
    ∧ (Experience.updateParticle M s τ pc i po p).position.y
        = p.position.y
          + ((((i : ℚ)/PARTICLE_COUNT) * 25 - 10) - p.position.y) * (1/20) := by
  have hd : p.ptype ≠ PType.DUST := by rw [hp]; intro h; cases h
  have hsl : s.mode ≠ AppMode.SCATTER ∨ p.ptype = PType.PHOTO := by
    left; rw [hm]; intro h; cases h
  have htu : targetUpdate M s τ pc i po p =
      { p with
        targetPosition :=
          ⟨M.cos (((i : ℚ)/PARTICLE_COUNT) * 50 * M.pi + τ * (1/5))
              * (12 * (1 - (i : ℚ)/PARTICLE_COUNT)),
           ((i : ℚ)/PARTICLE_COUNT) * 25 - 10,
           M.sin (((i : ℚ)/PARTICLE_COUNT) * 50 * M.pi + τ * (1/5))
              * (12 * (1 - (i : ℚ)/PARTICLE_COUNT))⟩,
        targetRotation :=
          ⟨0, ((i : ℚ)/PARTICLE_COUNT) * 50 * M.pi + τ * (1/5), 0⟩,
        targetScale := ⟨1, 1, 1⟩ } := by
    simp only [targetUpdate, hm, hp]
  refine ⟨?_, ?_⟩
  · simp only [Experience.updateParticle, if_neg hd, if_pos hsl, htu, lerpV]
    exact hp
  · simp only [Experience.updateParticle, if_neg hd, if_pos hsl, htu, lerpV]

/-- One engine tick over an all-ornament registry in TREE mode: length
and kinds are preserved, each vertical coordinate contracts toward its
helix height, and each target lands on the helix curve. -/
theorem treeTickList (M : HostMath) (s : State) (τ : ℚ)
    (ps : List ParticleData) (hm : s.mode = AppMode.TREE)
    (hall : ∀ p ∈ ps, p.ptype = PType.PARTICLE) :
    (Experience.update M s τ ps).length = ps.length
    ∧ (∀ p ∈ Experience.update M s τ ps, p.ptype = PType.PARTICLE)
    ∧ (∀ i, i < ps.length →
        ((Experience.update M s τ ps).getD i default).position.y
          = (ps.getD i default).position.y
            + ((((i : ℚ)/PARTICLE_COUNT) * 25 - 10)
                - (ps.getD i default).position.y) * (1/20))
    ∧ (∀ i, i < ps.length →
        ((Experience.update M s τ ps).getD i default).targetPosition
          = helixPoint M ((i : ℚ)/PARTICLE_COUNT)
              (((i : ℚ)/PARTICLE_COUNT) * 50 * M.pi + τ * (1/5))) := by
  have hmem : ∀ j, j < ps.length → (ps.getD j default).ptype = PType.PARTICLE := by
    intro j hj
    apply hall
    rw [List.getD_eq_getElem ps default hj]
    exact List.getElem_mem hj
  refine ⟨update_length M s τ ps, ?_, ?_, ?_⟩
  · intro q hq
    simp only [Experience.update, List.mem_map, List.mem_range] at hq
    obtain ⟨j, hj, rfl⟩ := hq
    exact (treeOrnamentTick M s τ _ j _ _ hm (hmem j hj)).1
  · intro i hi
    rw [update_getD M s τ ps i hi]
    exact (treeOrnamentTick M s τ _ i _ _ hm (hmem i hi)).2
  · intro i hi
    rw [update_getD M s τ ps i hi]
    exact (treeOrnamentTarget M s τ _ i _ _ hm (hmem i hi)).1

/-- Running any number of no-hand ticks from TREE mode over an
all-ornament registry: the state is untouched, lengths and kinds are
preserved, each vertical offset from the helix height contracts by
exactly 19/20 per tick, and after at least one tick every target sits on
the helix curve. -/
theorem treeRun (M : HostMath) (times : List ℚ) (s : State)
    (ps : List ParticleData) (hm : s.mode = AppMode.TREE)
    (hall : ∀ p ∈ ps, p.ptype = PType.PARTICLE) :
    (runTicks M (noHandFrames times) s ps).1 = s
    ∧ (runTicks M (noHandFrames times) s ps).2.length = ps.length
    ∧ (∀ p ∈ (runTicks M (noHandFrames times) s ps).2,
        p.ptype = PType.PARTICLE)
    ∧ (∀ i, i < ps.length →
        ((runTicks M (noHandFrames times) s ps).2.getD i default).position.y
            - (((i : ℚ)/PARTICLE_COUNT) * 25 - 10)
          = (19/20)^times.length
            * ((ps.getD i default).position.y
                - (((i : ℚ)/PARTICLE_COUNT) * 25 - 10)))
    ∧ (times ≠ [] → ∀ i, i < ps.length → ∃ θ : ℚ,
        ((runTicks M (noHandFrames times) s ps).2.getD i default).targetPosition
          = helixPoint M ((i : ℚ)/PARTICLE_COUNT) θ) := by
  induction times generalizing ps with
  | nil =>
    refine ⟨rfl, rfl, hall, ?_, fun hne => absurd rfl hne⟩
    intro i hi
    simp [runTicks, noHandFrames]
  | cons τ ts ih =>
    have hstep : runTicks M (noHandFrames (τ :: ts)) s ps
        = runTicks M (noHandFrames ts) s (Experience.update M s τ ps) := rfl
    obtain ⟨hlen1, hall1, hy1, htp1⟩ := treeTickList M s τ ps hm hall
    obtain ⟨ihs, ihlen, ihall, ihy, ihtp⟩ :=
      ih (Experience.update M s τ ps) hall1
    rw [hstep]
    refine ⟨ihs, by rw [ihlen, hlen1], ihall, ?_, ?_⟩
    · intro i hi
      have hi1 : i < (Experience.update M s τ ps).length := by
        rw [hlen1]; exact hi
      have h2 := ihy i hi1
      rw [h2, hy1 i hi]
      rw [List.length_cons, pow_succ]
      ring
    · intro _ i hi
      have hi1 : i < (Experience.update M s τ ps).length := by
        rw [hlen1]; exact hi
      rcases ts with _ | ⟨τ2, ts2⟩
      · refine ⟨((i : ℚ)/PARTICLE_COUNT) * 50 * M.pi + τ * (1/5), ?_⟩
        exact htp1 i hi
      · exact ihtp (by intro h; cases h) i hi1

/-- Counterexample to C9 as stated: after one hundred no-hand TREE
ticks the mode is still TREE, but the ornament's smoothed position does
not lie on the conical-helix curve of its rank, because its vertical
coordinate still differs from the helix height by the factor
(19/20)^100 of the initial offset. -/
theorem C9_counterexample :
    (runTicks hostW (noHandFrames times100) sTree [ornP]).1.mode
        = AppMode.TREE
    ∧ ¬ ∃ θ : ℚ,
        ((runTicks hostW (noHandFrames times100) sTree [ornP]).2.getD 0
            default).position
          = helixPoint hostW (((0 : ℕ) : ℚ)/PARTICLE_COUNT) θ := by
  have hall : ∀ p ∈ [ornP], p.ptype = PType.PARTICLE := by
    intro p hp
    rw [List.mem_singleton] at hp
    rw [hp]
    rfl
  have h := treeRun hostW times100 sTree [ornP] rfl hall
  constructor
  · rw [h.1]
    rfl
  · rintro ⟨θ, hθ⟩
    have hlen : times100.length = 100 := by
      rw [times100, List.length_map, List.length_range]
    have hoff := h.2.2.2.1 0 (by norm_num)
    rw [hlen] at hoff
    have hy := congrArg Vec3.y hθ
    simp only [helixPoint] at hy
    rw [hy] at hoff
    have h0 : (([ornP].getD 0 default)).position.y = 0 := rfl
    rw [h0] at hoff
    norm_num [PARTICLE_COUNT] at hoff

/-- C9 amended: starting in TREE and ticking with no hand data, the mode
remains TREE; each ornament target lies on the conical-helix curve of
its rank, and the actual smoothed position converges toward the curve,
its vertical offset from the helix height shrinking by exactly 19/20 per
tick rather than lying on the curve. -/
theorem C9_tree_convergence (M : HostMath) (times : List ℚ) (s : State)
    (ps : List ParticleData) (hm : s.mode = AppMode.TREE)
    (hall : ∀ p ∈ ps, p.ptype = PType.PARTICLE) :
    (runTicks M (noHandFrames times) s ps).1.mode = AppMode.TREE
    ∧ (∀ i, i < ps.length →
        ((runTicks M (noHandFrames times) s ps).2.getD i default).position.y
            - (((i : ℚ)/PARTICLE_COUNT) * 25 - 10)
          = (19/20)^times.length
            * ((ps.getD i default).position.y
                - (((i : ℚ)/PARTICLE_COUNT) * 25 - 10)))
    ∧ (times ≠ [] → ∀ i, i < ps.length → ∃ θ : ℚ,
        ((runTicks M (noHandFrames times) s ps).2.getD i default).targetPosition
          = helixPoint M ((i : ℚ)/PARTICLE_COUNT) θ) := by
  have h := treeRun M times s ps hm hall
  exact ⟨by rw [h.1, hm], h.2.2.2.1, h.2.2.2.2⟩

/-- Witness for the amended C9: one no-hand tick over a single ornament
keeps the mode TREE, puts the target on the helix curve, and contracts
the vertical offset by 19/20. -/
theorem C9_witness :
    (runTicks hostW (noHandFrames [(0 : ℚ)]) sTree [ornP]).1.mode
        = AppMode.TREE
    ∧ ((runTicks hostW (noHandFrames [(0 : ℚ)]) sTree [ornP]).2.getD 0
          default).position.y
        - ((((0 : ℕ) : ℚ)/PARTICLE_COUNT) * 25 - 10)
      = (19/20)^([(0 : ℚ)].length)
        * (([ornP].getD 0 default).position.y
            - ((((0 : ℕ) : ℚ)/PARTICLE_COUNT) * 25 - 10))
    ∧ ∃ θ : ℚ,
        ((runTicks hostW (noHandFrames [(0 : ℚ)]) sTree [ornP]).2.getD 0
            default).targetPosition
          = helixPoint hostW (((0 : ℕ) : ℚ)/PARTICLE_COUNT) θ := by
  have hall : ∀ p ∈ [ornP], p.ptype = PType.PARTICLE := by
    intro p hp
    rw [List.mem_singleton] at hp
    rw [hp]
    rfl
  have h := C9_tree_convergence hostW [(0 : ℚ)] sTree [ornP] rfl hall
  exact ⟨h.1, h.2.1 0 (by norm_num), h.2.2 (by simp) 0 (by norm_num)⟩
